import Mathlib

/-!
Shallow embedding of `src/ic-agent/src/agent/http_transport.rs`.

The Rust module implements `ReqwestHttpReplicaV2TransportImpl`: an HTTP
transport that joins a base URL with `api/v2/`, routes four logical
operations (`call`, `read_state`, `query`, `status`) to concrete requests,
and drives each request through a 401 / HTTP-Basic-credential retry loop
(`execute` + `maybe_add_authorization`).

Modelling decisions:
* External collaborators are modelled at their interface boundary, as the
  spec prescribes: the reqwest connector becomes a function from the
  attempt index and the outgoing request to an optional response (`none`
  models a transport-level failure); `reqwest::Url` parsing and joining
  become abstract functions quantified over in the theorems.
* The `PasswordManager` trait is a record of two functions. Since a real
  implementation may be stateful across successive `required()` calls of
  one `execute`, `required` additionally receives the number of prior
  `required()` invocations of this call; a stateless manager ignores it.
* The Rust loop has no bound, so the loop is given fuel; `LoopOut.out`
  (and `ExecRes.out`) mark fuel exhaustion, an artefact of the embedding
  that corresponds to the source looping longer than the fuel allows.
* Execution is instrumented: alongside the result, `execute` returns the
  list of requests handed to the connector in order, and the number of
  `cached` / `required` invocations.  The instrumentation only records
  what happens; it never influences control flow.
* Machine strings and byte bodies are `String` and `List Nat`.
-/

namespace HttpTransport

/-- A username/password pair, as returned by the Rust `PasswordManager`. -/
abbrev Credential := String × String

/-- The HTTP methods the module uses (`reqwest::Method`). -/
inductive Method where
  | GET
  | POST
  deriving DecidableEq, Repr

/-- Abstract model of a parsed `reqwest::Url`: its scheme, its host
(`host_str()`), and its full textual form (`as_str()`). -/
structure Url where
  scheme : String
  host : Option String
  full : String
  deriving DecidableEq, Repr

/-- The `PasswordManager` trait of the source: `cached` may fail or yield
no credential; `required` may fail.  The extra `Nat` given to `required`
is the number of prior `required` invocations in this call, so that a
stateful provider can be modelled. -/
structure PasswordManager where
  cached : String → Except String (Option Credential)
  required : Nat → String → Except String Credential

/-- `NoPasswordManager` is `std::convert::Infallible` in the source: an
uninhabited type standing for "no password manager". -/
def NoPasswordManager : Type := Empty

/-- The `impl PasswordManager for NoPasswordManager` of the source: both
methods are `unreachable!()`, modelled by eliminating the empty type. -/
def NoPasswordManager.toManager (m : NoPasswordManager) : PasswordManager :=
  m.elim

/-- An outgoing `reqwest::Request`: method, absolute URL, headers
(name/value pairs; `insertHeader` keeps at most one value per name, as
`HeaderMap::insert` does), optional body bytes. -/
structure Request where
  method : Method
  url : String
  headers : List (String × String)
  body : Option (List Nat)
  deriving DecidableEq, Repr

/-- The triple the source's `request` helper extracts from a reqwest
response: status code, response headers (values as raw bytes, since
`HeaderValue` need not be a valid string), body bytes. -/
structure Response where
  status : Nat
  headers : List (String × List Nat)
  body : List Nat
  deriving DecidableEq, Repr

/-- The connector (reqwest client + network), specified at its interface
boundary: given the attempt index (number of prior sends in this call)
and the cloned request, it returns the response triple, or `none` for a
transport-level failure (mapped to `TransportError` by the source). -/
abbrev Connector := Nat → Request → Option Response

/-- The `AgentError` variants this module can produce or mention. -/
inductive AgentError where
  | InvalidReplicaUrl (url : String)
  | UrlParseError
  | TransportError
  | AuthenticationError (msg : String)
  | CannotUseAuthenticationOnNonSecureUrl
  | HttpError (status : Nat) (contentType : Option String) (content : List Nat)
  deriving DecidableEq, Repr

/-- Instrumentation: how many times `cached` and `required` were invoked
during one `execute` call. -/
structure AuthCounts where
  cachedCalls : Nat
  requiredCalls : Nat
  deriving DecidableEq, Repr

/-- Instrumentation: the requests handed to the connector, in order, and
the provider invocation counts. -/
structure ExecState where
  sent : List Request
  counts : AuthCounts
  deriving Repr

/-- Outcome of the send/retry loop before classification. -/
inductive LoopOut where
  | brk (status : Nat) (headers : List (String × List Nat)) (body : List Nat)
  | err (e : AgentError)
  | out
  deriving DecidableEq, Repr

/-- Result of `execute` (and of the router operations): success value,
typed failure, or fuel exhaustion (model artefact for the unbounded
source loop). -/
inductive ExecRes (α : Type) where
  | ok (a : α)
  | err (e : AgentError)
  | out
  deriving DecidableEq, Repr

/-- `HeaderMap::insert`: at most one value per header name; the new value
replaces any existing one. -/
def insertHeader (hs : List (String × String)) (nm v : String) :
    List (String × String) :=
  (nm, v) :: hs.filter (fun p => p.1 != nm)

/-- The base64 alphabet used by `base64::encode`. -/
def base64Chars : List Char :=
  "ABCDEFGHIJKLMNOPQRSTUVWXYZabcdefghijklmnopqrstuvwxyz0123456789+/".toList

/-- One base64 digit. -/
def base64Char (n : Nat) : Char := base64Chars.getD n (Char.ofNat 65)

/-- `base64::encode` over byte values (standard alphabet, `=` padding). -/
def base64Encode : List Nat → String
  | [] => ""
  | [a] =>
    let x := a % 256
    String.mk [base64Char (x / 4), base64Char (x % 4 * 16)] ++ "=="
  | [a, b] =>
    let x := a % 256
    let y := b % 256
    String.mk [base64Char (x / 4), base64Char (x % 4 * 16 + y / 16),
      base64Char (y % 16 * 4)] ++ "="
  | a :: b :: c :: rest =>
    let x := a % 256
    let y := b % 256
    let z := c % 256
    String.mk [base64Char (x / 4), base64Char (x % 4 * 16 + y / 16),
      base64Char (y % 16 * 4 + z / 64), base64Char (z % 64)] ++
      base64Encode rest

/-- UTF-8 bytes of a string, as `format!` + `as_bytes` would produce. -/
def strBytes (s : String) : List Nat :=
  s.toUTF8.toList.map (fun b => b.toNat)

/-- Attach `Authorization: Basic base64(user:pass)` to the request,
replacing any previous value (source lines 130-134). -/
def applyAuth (req : Request) (cr : Credential) : Request :=
  let v := "Basic " ++ base64Encode (strBytes (cr.1 ++ ":" ++ cr.2))
  { req with headers := insertHeader req.headers "authorization" v }

/-- `maybe_add_authorization` of the source: with no manager it does
nothing; otherwise it queries `cached` or `required` (on the request's
URL), propagates provider failure as `AuthenticationError`, and attaches
the credential when one is produced.  `reqIdx` is the index passed to the
stateful `required` model; `c` threads the instrumentation counts. -/
def maybe_add_authorization (pm : Option PasswordManager) (req : Request)
    (useCached : Bool) (reqIdx : Nat) (c : AuthCounts) :
    Except AgentError Request × AuthCounts :=
  match pm with
  | none => (.ok req, c)
  | some p =>
    let r : Except String (Option Credential) × AuthCounts :=
      if useCached then
        (p.cached req.url, { c with cachedCalls := c.cachedCalls + 1 })
      else
        ((p.required reqIdx req.url).map some,
          { c with requiredCalls := c.requiredCalls + 1 })
    match r with
    | (.error e, c2) => (.error (.AuthenticationError e), c2)
    | (.ok none, c2) => (.ok req, c2)
    | (.ok (some cr), c2) => (.ok (applyAuth req cr), c2)

/-- `StatusCode::is_client_error`: 400..=499. -/
def is_client_error (s : Nat) : Bool := decide (400 ≤ s ∧ s < 500)

/-- `StatusCode::is_server_error`: 500..=599. -/
def is_server_error (s : Nat) : Bool := decide (500 ≤ s ∧ s < 600)

/-- One byte is acceptable to `HeaderValue::to_str`: visible ASCII or
tab. -/
def isVisibleAscii (b : Nat) : Bool := decide ((32 ≤ b ∧ b < 127) ∨ b = 9)

/-- `HeaderValue::to_str().ok()`: the value as a string when every byte
is visible ASCII (or tab), otherwise `none`. -/
def headerValueToStr (v : List Nat) : Option String :=
  if v.all isVisibleAscii then some (String.mk (v.map Char.ofNat)) else none

/-- `headers.get(CONTENT_TYPE).and_then(to_str.ok).map(to_string)`:
the first `content-type` header's value as a string, if present and
convertible. -/
def contentTypeOf (hdrs : List (String × List Nat)) : Option String :=
  ((hdrs.find? (fun p => p.1 == "content-type")).map Prod.snd).bind
    headerValueToStr

/-- Classification of the terminal response (source lines 205-216):
4xx/5xx becomes `HttpError` with status, optional content type and raw
body; anything else is success with the raw body. -/
def classify (s : Nat) (hdrs : List (String × List Nat)) (b : List Nat) :
    ExecRes (List Nat) :=
  if is_client_error s || is_server_error s then
    .err (.HttpError s (contentTypeOf hdrs) b)
  else
    .ok b

/-- The transport: the URL stored at construction (base joined with
`api/v2/`) and the optional password manager. -/
structure Transport where
  url : Url
  password_manager : Option PasswordManager

/-- The send/retry loop of `execute` (source lines 185-203), with fuel.
Each iteration clones and sends the current request; a connector failure
is `TransportError`; a 401 either escalates credentials (secure scheme or
localhost host, judged on the transport's base URL) and repeats, or
aborts with `CannotUseAuthenticationOnNonSecureUrl`; any other status
breaks with the response triple. -/
def executeLoop (t : Transport) (connector : Connector) :
    Nat → Request → ExecState → LoopOut × ExecState
  | 0, _, st => (.out, st)
  | fuel + 1, req, st =>
    match connector st.sent.length req with
    | none => (.err .TransportError, { st with sent := st.sent ++ [req] })
    | some resp =>
      if resp.status = 401 then
        if t.url.scheme = "https" ∨ t.url.host = some "localhost" then
          match maybe_add_authorization t.password_manager req false
              (st.counts.requiredCalls) st.counts with
          | (.error e, c2) =>
            (.err e, { sent := st.sent ++ [req], counts := c2 })
          | (.ok req2, c2) =>
            executeLoop t connector fuel req2
              { sent := st.sent ++ [req], counts := c2 }
        else
          (.err .CannotUseAuthenticationOnNonSecureUrl,
            { st with sent := st.sent ++ [req] })
      else
        (.brk resp.status resp.headers resp.body,
          { st with sent := st.sent ++ [req] })

/-- The request `execute` builds before attaching credentials and the
body: the joined URL with the fixed `Content-Type: application/cbor`
header (source lines 172-176). -/
def initialRequest (m : Method) (u : Url) : Request :=
  ⟨m, u.full, [("content-type", "application/cbor")], none⟩

/-- `execute` of the source (lines 165-217): join the endpoint onto the
stored URL (failure propagates as a URL parse error), build the request,
attach a cached credential if any, set the body, run the retry loop, and
classify the terminal response.  `joinUrl` abstracts `reqwest::Url::join`;
the second component of the result is the instrumentation record. -/
def execute (joinUrl : Url → String → Option Url) (t : Transport)
    (connector : Connector) (m : Method) (endpoint : String)
    (body : Option (List Nat)) (fuel : Nat) :
    ExecRes (List Nat) × ExecState :=
  match joinUrl t.url endpoint with
  | none => (.err .UrlParseError, ⟨[], ⟨0, 0⟩⟩)
  | some u =>
    match maybe_add_authorization t.password_manager (initialRequest m u)
        true 0 ⟨0, 0⟩ with
    | (.error e, c) => (.err e, ⟨[], c⟩)
    | (.ok req1, c) =>
      match executeLoop t connector fuel { req1 with body := body } ⟨[], c⟩ with
      | (.brk s hdrs b, st) => (classify s hdrs b, st)
      | (.err e, st) => (.err e, st)
      | (.out, st) => (.out, st)

/-- `create` of the source (lines 74-96): parse the input address and
join it with `api/v2/`; failure of either step is
`InvalidReplicaUrl` carrying the input; success stores the joined URL and
no password manager.  `parseUrl` and `joinUrl` abstract the url crate. -/
def create (parseUrl : String → Option Url)
    (joinUrl : Url → String → Option Url) (url : String) :
    Except AgentError Transport :=
  match (parseUrl url).bind (fun u => joinUrl u "api/v2/") with
  | none => .error (.InvalidReplicaUrl url)
  | some u => .ok ⟨u, none⟩

/-- `with_password_manager` of the source (lines 98-107): replaces the
manager, keeping the stored URL. -/
def with_password_manager (t : Transport) (p : PasswordManager) : Transport :=
  ⟨t.url, some p⟩

/-- The `call` operation: POST to `canister/<text(id)>/call` with the
envelope as body; the response body is discarded on success. -/
def call (joinUrl : Url → String → Option Url) (t : Transport)
    (connector : Connector) (idText : String) (envelope : List Nat)
    (fuel : Nat) : ExecRes Unit × ExecState :=
  match execute joinUrl t connector .POST ("canister/" ++ idText ++ "/call")
      (some envelope) fuel with
  | (.ok _, st) => (.ok (), st)
  | (.err e, st) => (.err e, st)
  | (.out, st) => (.out, st)

/-- The `read_state` operation: POST to `canister/<text(id)>/read_state`
with the envelope as body; the response body is returned. -/
def read_state (joinUrl : Url → String → Option Url) (t : Transport)
    (connector : Connector) (idText : String) (envelope : List Nat)
    (fuel : Nat) : ExecRes (List Nat) × ExecState :=
  execute joinUrl t connector .POST ("canister/" ++ idText ++ "/read_state")
    (some envelope) fuel

/-- The `query` operation: POST to `canister/<text(id)>/query` with the
envelope as body; the response body is returned. -/
def query (joinUrl : Url → String → Option Url) (t : Transport)
    (connector : Connector) (idText : String) (envelope : List Nat)
    (fuel : Nat) : ExecRes (List Nat) × ExecState :=
  execute joinUrl t connector .POST ("canister/" ++ idText ++ "/query")
    (some envelope) fuel

/-- The `status` operation: GET to `status` with no body; the response
body is returned. -/
def status (joinUrl : Url → String → Option Url) (t : Transport)
    (connector : Connector) (fuel : Nat) : ExecRes (List Nat) × ExecState :=
  execute joinUrl t connector .GET "status" none fuel

/-- The headers of a request without its `authorization` entry: what must
stay identical across the attempts of one call. -/
def stripAuth (hs : List (String × String)) : List (String × String) :=
  hs.filter (fun p => p.1 != "authorization")

/-- Two requests agree on everything except possibly the `authorization`
header. -/
def sameCore (r q : Request) : Prop :=
  r.method = q.method ∧ r.url = q.url ∧ r.body = q.body ∧
    stripAuth r.headers = stripAuth q.headers

/-- A connector answering every attempt with the same response. -/
def alwaysConnector (r : Response) : Connector := fun _ _ => some r

/-- A connector answering the first `n` attempts with `r401` and every
later attempt with `rF`. -/
def stepConnector (n : Nat) (r401 rF : Response) : Connector :=
  fun i _ => some (if i < n then r401 else rF)

/-- A secure base URL for concrete instances. -/
def demoUrl : Url :=
  ⟨"https", some "example.com", "https://example.com/api/v2/"⟩

/-- An insecure, non-localhost base URL for concrete instances. -/
def insecureUrl : Url :=
  ⟨"http", some "example.com", "http://example.com/api/v2/"⟩

/-- A join model for concrete instances: append the relative path. -/
def demoJoin : Url → String → Option Url :=
  fun u ep => some ⟨u.scheme, u.host, u.full ++ ep⟩

/-- A manager with no cached credential whose `required` always supplies
`user`/`pw`. -/
def demoPm : PasswordManager :=
  ⟨fun _ => .ok none, fun _ _ => .ok ("user", "pw")⟩

/-- A manager whose `cached` fails. -/
def demoPmCachedFail : PasswordManager :=
  ⟨fun _ => .error "keychain locked", fun _ _ => .ok ("user", "pw")⟩

/-- A manager with no cached credential whose `required` fails. -/
def demoPmRequiredFail : PasswordManager :=
  ⟨fun _ => .ok none, fun _ _ => .error "no terminal"⟩

/-- A secure transport with no password manager. -/
def demoTransportNoPm : Transport := ⟨demoUrl, none⟩

/-- A secure transport with `demoPm`. -/
def demoTransportPm : Transport := ⟨demoUrl, some demoPm⟩

/-- A secure transport with `demoPmCachedFail`. -/
def demoTransportCachedFail : Transport := ⟨demoUrl, some demoPmCachedFail⟩

/-- A secure transport with `demoPmRequiredFail`. -/
def demoTransportRequiredFail : Transport := ⟨demoUrl, some demoPmRequiredFail⟩

/-- An insecure transport with `demoPm`. -/
def demoTransportInsecure : Transport := ⟨insecureUrl, some demoPm⟩

/-- A response with status 401 and empty body. -/
def respUnauthorized : Response := ⟨401, [], []⟩

/-- A response with status 200 and the body bytes 7, 8. -/
def respOkBody : Response := ⟨200, [], [7, 8]⟩

/-- A response with status 404 and the body bytes 9. -/
def respNotFound : Response := ⟨404, [], [9]⟩

/-- A parse model that rejects every input, for concrete instances. -/
def demoParseNone : String → Option Url := fun _ => none

/-- A parse model that accepts every input as an https URL, for concrete
instances. -/
def demoParseSome : String → Option Url :=
  fun s => some ⟨"https", some "example.com", s⟩

/-! ### Helper lemmas -/

theorem stripAuth_insertHeader (hs : List (String × String)) (v : String) :
    stripAuth (insertHeader hs "authorization" v) = stripAuth hs := by
  simp [stripAuth, insertHeader, List.filter_filter]

theorem sameCore_refl (r : Request) : sameCore r r :=
  ⟨rfl, rfl, rfl, rfl⟩

theorem sameCore_trans {r q s : Request} (h1 : sameCore r q)
    (h2 : sameCore q s) : sameCore r s :=
  ⟨h1.1.trans h2.1, h1.2.1.trans h2.2.1, h1.2.2.1.trans h2.2.2.1,
    h1.2.2.2.trans h2.2.2.2⟩

theorem applyAuth_core (req : Request) (cr : Credential) :
    sameCore (applyAuth req cr) req := by
  refine ⟨rfl, rfl, rfl, ?_⟩
  simp [applyAuth, stripAuth_insertHeader]

theorem maybe_add_core {pm : Option PasswordManager} {req : Request}
    {uc : Bool} {i : Nat} {c c2 : AuthCounts} {r2 : Request}
    (h : maybe_add_authorization pm req uc i c = (.ok r2, c2)) :
    sameCore r2 req := by
  match pm with
  | none =>
    simp [maybe_add_authorization] at h
    rw [h.1.symm]
    exact sameCore_refl req
  | some p =>
    simp only [maybe_add_authorization] at h
    by_cases huc : uc = true
    · subst huc
      simp only [if_pos rfl] at h
      match hc : p.cached req.url with
      | .error e => rw [hc] at h; simp at h
      | .ok none =>
        rw [hc] at h
        simp at h
        rw [h.1.symm]
        exact sameCore_refl req
      | .ok (some cr) =>
        rw [hc] at h
        simp at h
        rw [h.1.symm]
        exact applyAuth_core req cr
    · rw [Bool.not_eq_true] at huc
      subst huc
      simp only [Bool.false_eq_true, if_neg, ite_false] at h
      match hc : p.required i req.url with
      | .error e => rw [hc] at h; simp [Except.map] at h
      | .ok cr =>
        rw [hc] at h
        simp [Except.map] at h
        rw [h.1.symm]
        exact applyAuth_core req cr

theorem maybe_add_cached_requiredCalls (pm : Option PasswordManager)
    (req : Request) (i : Nat) (c : AuthCounts) :
    ((maybe_add_authorization pm req true i c).2).requiredCalls =
      c.requiredCalls := by
  match pm with
  | none => rfl
  | some p =>
    simp only [maybe_add_authorization, if_pos]
    match hc : p.cached req.url with
    | .error e => simp [hc]
    | .ok none => simp [hc]
    | .ok (some cr) => simp [hc]

theorem maybe_add_required_ok {p : PasswordManager} {req : Request}
    {i : Nat} {cr : Credential} (c : AuthCounts)
    (h : p.required i req.url = .ok cr) :
    maybe_add_authorization (some p) req false i c =
      (.ok (applyAuth req cr),
        { c with requiredCalls := c.requiredCalls + 1 }) := by
  simp [maybe_add_authorization, h, Except.map]

theorem maybe_add_required_err {p : PasswordManager} {req : Request}
    {i : Nat} {msg : String} (c : AuthCounts)
    (h : p.required i req.url = .error msg) :
    maybe_add_authorization (some p) req false i c =
      (.error (.AuthenticationError msg),
        { c with requiredCalls := c.requiredCalls + 1 }) := by
  simp [maybe_add_authorization, h, Except.map]

theorem executeLoop_conn_none {t : Transport} {connector : Connector}
    {fuel : Nat} {req : Request} {st : ExecState}
    (h : connector st.sent.length req = none) :
    executeLoop t connector (fuel + 1) req st =
      (.err .TransportError, { st with sent := st.sent ++ [req] }) := by
  simp [executeLoop, h]

theorem executeLoop_brk {t : Transport} {connector : Connector}
    {fuel : Nat} {req : Request} {st : ExecState} {resp : Response}
    (h : connector st.sent.length req = some resp)
    (h401 : resp.status ≠ 401) :
    executeLoop t connector (fuel + 1) req st =
      (.brk resp.status resp.headers resp.body,
        { st with sent := st.sent ++ [req] }) := by
  simp [executeLoop, h, h401]

theorem executeLoop_insecure {t : Transport} {connector : Connector}
    {fuel : Nat} {req : Request} {st : ExecState} {resp : Response}
    (h : connector st.sent.length req = some resp)
    (h401 : resp.status = 401)
    (hsch : t.url.scheme ≠ "https")
    (hh : t.url.host ≠ some "localhost") :
    executeLoop t connector (fuel + 1) req st =
      (.err .CannotUseAuthenticationOnNonSecureUrl,
        { st with sent := st.sent ++ [req] }) := by
  simp only [executeLoop, h]
  rw [if_pos h401, if_neg]
  intro hc
  exact hc.elim (fun h1 => hsch h1) (fun h2 => hh h2)

theorem executeLoop_secure_step {t : Transport} {connector : Connector}
    {fuel : Nat} {req : Request} {st : ExecState} {resp : Response}
    (h : connector st.sent.length req = some resp)
    (h401 : resp.status = 401)
    (hsec : t.url.scheme = "https" ∨ t.url.host = some "localhost") :
    executeLoop t connector (fuel + 1) req st =
      (match maybe_add_authorization t.password_manager req false
          (st.counts.requiredCalls) st.counts with
        | (.error e, c2) => (.err e, ⟨st.sent ++ [req], c2⟩)
        | (.ok req2, c2) =>
          executeLoop t connector fuel req2 ⟨st.sent ++ [req], c2⟩) := by
  simp only [executeLoop, h]
  rw [if_pos h401, if_pos hsec]

theorem execute_join_none {joinUrl : Url → String → Option Url}
    {t : Transport} {connector : Connector} {m : Method} {ep : String}
    {bdy : Option (List Nat)} {fuel : Nat}
    (hj : joinUrl t.url ep = none) :
    execute joinUrl t connector m ep bdy fuel =
      (.err .UrlParseError, ⟨[], ⟨0, 0⟩⟩) := by
  simp [execute, hj]

theorem execute_auth_err {joinUrl : Url → String → Option Url}
    {t : Transport} {connector : Connector} {m : Method} {ep : String}
    {bdy : Option (List Nat)} {fuel : Nat} {u : Url} {e : AgentError}
    {c : AuthCounts}
    (hj : joinUrl t.url ep = some u)
    (ha : maybe_add_authorization t.password_manager (initialRequest m u)
      true 0 ⟨0, 0⟩ = (.error e, c)) :
    execute joinUrl t connector m ep bdy fuel = (.err e, ⟨[], c⟩) := by
  simp [execute, hj, ha]

theorem execute_eq_loop {joinUrl : Url → String → Option Url}
    {t : Transport} {connector : Connector} {m : Method} {ep : String}
    {bdy : Option (List Nat)} {fuel : Nat} {u : Url} {r1 : Request}
    {c : AuthCounts}
    (hj : joinUrl t.url ep = some u)
    (ha : maybe_add_authorization t.password_manager (initialRequest m u)
      true 0 ⟨0, 0⟩ = (.ok r1, c)) :
    execute joinUrl t connector m ep bdy fuel =
      (match executeLoop t connector fuel { r1 with body := bdy } ⟨[], c⟩ with
        | (.brk s hdrs b, st) => (classify s hdrs b, st)
        | (.err e, st) => (.err e, st)
        | (.out, st) => (.out, st)) := by
  simp [execute, hj, ha]

theorem executeLoop_sent (t : Transport) (connector : Connector)
    (reqBase : Request) : ∀ (fuel : Nat) (req : Request) (st : ExecState),
    sameCore req reqBase →
    (∀ r ∈ st.sent, sameCore r reqBase) →
    ∀ r ∈ (executeLoop t connector fuel req st).2.sent, sameCore r reqBase := by
  intro fuel
  induction fuel with
  | zero =>
    intro req st _ hst r hr
    exact hst r hr
  | succ n ih =>
    intro req st hreq hst r hr
    have happ : ∀ r2, r2 ∈ st.sent ++ [req] → sameCore r2 reqBase := by
      intro r2 hr2
      rcases List.mem_append.mp hr2 with h1 | h1
      · exact hst r2 h1
      · rw [List.mem_singleton.mp h1]
        exact hreq
    match hc : connector st.sent.length req with
    | none =>
      rw [executeLoop_conn_none hc] at hr
      exact happ r hr
    | some resp =>
      by_cases h401 : resp.status = 401
      · by_cases hsec : t.url.scheme = "https" ∨ t.url.host = some "localhost"
        · rw [executeLoop_secure_step hc h401 hsec] at hr
          match hm : maybe_add_authorization t.password_manager req false
              (st.counts.requiredCalls) st.counts with
          | (.error e, c2) =>
            rw [hm] at hr
            exact happ r hr
          | (.ok req2, c2) =>
            rw [hm] at hr
            exact ih req2 ⟨st.sent ++ [req], c2⟩
              (sameCore_trans (maybe_add_core hm) hreq) happ r hr
        · rw [not_or] at hsec
          rw [executeLoop_insecure hc h401 hsec.1 hsec.2] at hr
          exact happ r hr
      · rw [executeLoop_brk hc h401] at hr
        exact happ r hr

theorem executeLoop_no_pm (t : Transport) (connector : Connector)
    (hpm : t.password_manager = none) :
    ∀ (fuel : Nat) (req : Request) (st : ExecState),
    ((executeLoop t connector fuel req st).2.counts = st.counts) ∧
    (∀ msg, (executeLoop t connector fuel req st).1 ≠
      .err (.AuthenticationError msg)) ∧
    (∀ r ∈ (executeLoop t connector fuel req st).2.sent,
      r ∈ st.sent ∨ r = req) := by
  intro fuel
  induction fuel with
  | zero =>
    intro req st
    exact ⟨rfl, fun _ h => by simp [executeLoop] at h,
      fun r hr => Or.inl hr⟩
  | succ n ih =>
    intro req st
    match hc : connector st.sent.length req with
    | none =>
      rw [executeLoop_conn_none hc]
      refine ⟨rfl, fun msg h => by simp at h, fun r hr => ?_⟩
      rcases List.mem_append.mp hr with h1 | h1
      · exact Or.inl h1
      · exact Or.inr (List.mem_singleton.mp h1)
    | some resp =>
      by_cases h401 : resp.status = 401
      · by_cases hsec : t.url.scheme = "https" ∨ t.url.host = some "localhost"
        · rw [executeLoop_secure_step hc h401 hsec, hpm]
          simp only [maybe_add_authorization]
          have h3 := ih req ⟨st.sent ++ [req], st.counts⟩
          refine ⟨h3.1, h3.2.1, fun r hr => ?_⟩
          rcases h3.2.2 r hr with h4 | h4
          · rcases List.mem_append.mp h4 with h5 | h5
            · exact Or.inl h5
            · exact Or.inr (List.mem_singleton.mp h5)
          · exact Or.inr h4
        · rw [not_or] at hsec
          rw [executeLoop_insecure hc h401 hsec.1 hsec.2]
          refine ⟨rfl, fun msg h => by simp at h, fun r hr => ?_⟩
          rcases List.mem_append.mp hr with h1 | h1
          · exact Or.inl h1
          · exact Or.inr (List.mem_singleton.mp h1)
      · rw [executeLoop_brk hc h401]
        refine ⟨rfl, fun msg h => by simp at h, fun r hr => ?_⟩
        rcases List.mem_append.mp hr with h1 | h1
        · exact Or.inl h1
        · exact Or.inr (List.mem_singleton.mp h1)

theorem head_append_append {α : Type} (l : List α) (a b : α) :
    ((l ++ [a]) ++ [b]).head? = (l ++ [a]).head? := by
  cases l with
  | nil => rfl
  | cons x xs => rfl

theorem executeLoop_steps (t : Transport) (p : PasswordManager)
    (n : Nat) (r401 rF : Response) (uFull : String)
    (hpm : t.password_manager = some p)
    (hsec : t.url.scheme = "https" ∨ t.url.host = some "localhost")
    (h401 : r401.status = 401) (hF : rF.status ≠ 401)
    (hreq : ∀ i, ∃ cr, p.required i uFull = .ok cr) :
    ∀ (k fuel : Nat) (req : Request) (st : ExecState), req.url = uFull →
    st.sent.length + k = n → k + 1 ≤ fuel →
    (executeLoop t (stepConnector n r401 rF) fuel req st).1 =
        .brk rF.status rF.headers rF.body ∧
    (executeLoop t (stepConnector n r401 rF) fuel req st).2.sent.length =
        st.sent.length + (k + 1) ∧
    (executeLoop t (stepConnector n r401 rF) fuel req st).2.counts.requiredCalls
        = st.counts.requiredCalls + k ∧
    (executeLoop t (stepConnector n r401 rF) fuel req st).2.counts.cachedCalls
        = st.counts.cachedCalls ∧
    (executeLoop t (stepConnector n r401 rF) fuel req st).2.sent.head? =
        (st.sent ++ [req]).head? := by
  intro k
  induction k with
  | zero =>
    intro fuel req st _ hlen hfuel
    match fuel, hfuel with
    | fuel + 1, _ =>
      have hlen0 : st.sent.length = n := by omega
      have hc : stepConnector n r401 rF st.sent.length req = some rF := by
        simp only [stepConnector]
        rw [hlen0, if_neg (lt_irrefl n)]
      rw [executeLoop_brk hc hF]
      refine ⟨rfl, ?_, rfl, rfl, rfl⟩
      simp
    | 0, hfuel => exact absurd hfuel (by omega)
  | succ k ih =>
    intro fuel req st hurl hlen hfuel
    match fuel, hfuel with
    | fuel + 1, hfuel =>
      have hlt : st.sent.length < n := by omega
      have hc : stepConnector n r401 rF st.sent.length req = some r401 := by
        simp only [stepConnector]
        rw [if_pos hlt]
      rw [executeLoop_secure_step hc h401 hsec, hpm]
      obtain ⟨cr, hcr⟩ := hreq st.counts.requiredCalls
      rw [← hurl] at hcr
      rw [maybe_add_required_ok st.counts hcr]
      have hurl2 : (applyAuth req cr).url = uFull := by
        simp [applyAuth]
        exact hurl
      have hlen2 : (st.sent ++ [req]).length + k = n := by
        simp
        omega
      have hfuel2 : k + 1 ≤ fuel := by omega
      have h5 := ih fuel (applyAuth req cr)
        ⟨st.sent ++ [req], { st.counts with
          requiredCalls := st.counts.requiredCalls + 1 }⟩ hurl2 hlen2 hfuel2
      refine ⟨h5.1, ?_, ?_, h5.2.2.2.1, ?_⟩
      · rw [h5.2.1]
        simp
        omega
      · rw [h5.2.2.1]
        simp
        omega
      · rw [h5.2.2.2.2, head_append_append]
    | 0, hfuel => exact absurd hfuel (by omega)

theorem client_server_iff (s : Nat) :
    (is_client_error s || is_server_error s) = true ↔ (400 ≤ s ∧ s < 600) := by
  simp [is_client_error, is_server_error]
  omega

theorem execute_sent_eq_loop {joinUrl : Url → String → Option Url}
    {t : Transport} {connector : Connector} {m : Method} {ep : String}
    {bdy : Option (List Nat)} {fuel : Nat} {u : Url} {r1 : Request}
    {c : AuthCounts}
    (hj : joinUrl t.url ep = some u)
    (ha : maybe_add_authorization t.password_manager (initialRequest m u)
      true 0 ⟨0, 0⟩ = (.ok r1, c)) :
    (execute joinUrl t connector m ep bdy fuel).2 =
      (executeLoop t connector fuel { r1 with body := bdy } ⟨[], c⟩).2 := by
  rw [execute_eq_loop hj ha]
  rcases executeLoop t connector fuel { r1 with body := bdy } ⟨[], c⟩ with ⟨lo, st⟩
  cases lo <;> rfl

theorem execute_sent_all {joinUrl : Url → String → Option Url}
    {t : Transport} {connector : Connector} {m : Method} {ep : String}
    {bdy : Option (List Nat)} {fuel : Nat} {u : Url} {r1 : Request}
    {c : AuthCounts}
    (hj : joinUrl t.url ep = some u)
    (ha : maybe_add_authorization t.password_manager (initialRequest m u)
      true 0 ⟨0, 0⟩ = (.ok r1, c)) :
    ∀ r ∈ (execute joinUrl t connector m ep bdy fuel).2.sent,
      r.method = m ∧ r.url = u.full ∧ r.body = bdy ∧
        stripAuth r.headers = stripAuth [("content-type", "application/cbor")] := by
  intro r hr
  rw [execute_sent_eq_loop hj ha] at hr
  have hcore : sameCore r { r1 with body := bdy } :=
    executeLoop_sent t connector { r1 with body := bdy } fuel
      { r1 with body := bdy } ⟨[], c⟩ (sameCore_refl _)
      (fun r2 hr2 => by simp at hr2) r hr
  have hr1 : sameCore r1 (initialRequest m u) := maybe_add_core ha
  refine ⟨?_, ?_, ?_, ?_⟩
  · rw [hcore.1]
    exact hr1.1
  · rw [hcore.2.1]
    exact hr1.2.1
  · exact hcore.2.2.1
  · rw [hcore.2.2.2]
    exact hr1.2.2.2

theorem execute_terminal_result {joinUrl : Url → String → Option Url}
    {t : Transport} {m : Method} {ep : String} {bdy : Option (List Nat)}
    {fuel : Nat} {u : Url} {r1 : Request} {c : AuthCounts} {resp : Response}
    (hj : joinUrl t.url ep = some u)
    (ha : maybe_add_authorization t.password_manager (initialRequest m u)
      true 0 ⟨0, 0⟩ = (.ok r1, c))
    (hterm : resp.status ≠ 401) (hfuel : 1 ≤ fuel) :
    execute joinUrl t (alwaysConnector resp) m ep bdy fuel =
      (classify resp.status resp.headers resp.body,
        ⟨[{ r1 with body := bdy }], c⟩) := by
  rw [execute_eq_loop hj ha]
  match fuel, hfuel with
  | fuel + 1, _ =>
    rw [executeLoop_brk (show alwaysConnector resp _ _ = some resp from rfl)
      hterm]
    simp

/-! ### The claims -/

/-- C1, counterexample.  On a secure (https) transport with no password
manager configured, if the connector answers 401 on the first attempt
and 200 with body `[7, 8]` on the second, `execute` does not abort with
an `AuthenticationError`: it re-sends the request and returns the final
body, having sent two requests. -/
theorem c1_counterexample :
    (execute demoJoin demoTransportNoPm
        (stepConnector 1 respUnauthorized respOkBody)
        .GET "status" none 2).1 = .ok [7, 8] ∧
    (execute demoJoin demoTransportNoPm
        (stepConnector 1 respUnauthorized respOkBody)
        .GET "status" none 2).2.sent.length = 2 := by
  constructor
  · rfl
  · rfl

/-- C1, amended.  On any transport with no password manager configured,
`execute` never returns an `AuthenticationError`; on a 401 the loop
re-enters with the request unchanged, so every request handed to the
connector during the call is identical to every other. -/
theorem c1_no_provider_never_auth_failure
    (joinUrl : Url → String → Option Url) (t : Transport)
    (connector : Connector) (m : Method) (ep : String)
    (bdy : Option (List Nat)) (fuel : Nat)
    (hpm : t.password_manager = none) :
    (∀ msg, (execute joinUrl t connector m ep bdy fuel).1 ≠
        .err (.AuthenticationError msg)) ∧
    (∀ r ∈ (execute joinUrl t connector m ep bdy fuel).2.sent,
      ∀ r2 ∈ (execute joinUrl t connector m ep bdy fuel).2.sent, r = r2) := by
  match hj : joinUrl t.url ep with
  | none =>
    rw [execute_join_none hj]
    constructor
    · intro msg h
      simp at h
    · intro r hr
      simp at hr
  | some u =>
    have ha : maybe_add_authorization t.password_manager (initialRequest m u)
        true 0 ⟨0, 0⟩ = (.ok (initialRequest m u), ⟨0, 0⟩) := by
      rw [hpm]
      rfl
    have h3 := executeLoop_no_pm t connector hpm fuel
      { initialRequest m u with body := bdy } ⟨[], ⟨0, 0⟩⟩
    have hsent : ∀ r ∈ (execute joinUrl t connector m ep bdy fuel).2.sent,
        r = { initialRequest m u with body := bdy } := by
      intro r hr
      rw [execute_sent_eq_loop hj ha] at hr
      rcases h3.2.2 r hr with h4 | h4
      · simp at h4
      · exact h4
    constructor
    · intro msg h
      rw [execute_eq_loop hj ha] at h
      rcases hL : executeLoop t connector fuel
          { initialRequest m u with body := bdy } ⟨[], ⟨0, 0⟩⟩ with ⟨lo, st⟩
      rw [hL] at h h3
      cases lo with
      | brk s hdrs b =>
        have h2 : classify s hdrs b = .err (.AuthenticationError msg) := h
        simp only [classify] at h2
        split at h2
        · simp at h2
        · simp at h2
      | err e =>
        have h2 : (ExecRes.err e : ExecRes (List Nat)) =
            .err (.AuthenticationError msg) := h
        have he : e = .AuthenticationError msg := by
          simpa using h2
        exact h3.2.1 msg (by rw [he])
      | out =>
        have h2 : (ExecRes.out : ExecRes (List Nat)) =
            .err (.AuthenticationError msg) := h
        simp at h2
    · intro r hr r2 hr2
      rw [hsent r hr, hsent r2 hr2]

/-- C1, witness for the amended theorem at a concrete input. -/
theorem c1_witness :
    (execute demoJoin demoTransportNoPm (alwaysConnector respOkBody)
        .GET "status" none 1).1 ≠ .err (.AuthenticationError "x") :=
  (c1_no_provider_never_auth_failure demoJoin demoTransportNoPm
    (alwaysConnector respOkBody) .GET "status" none 1 rfl).1 "x"

/-- C2, counterexample.  Take n = 0: on a secure transport with a
provider whose `cached` yields no credential, let the connector answer
the first attempt (attempt n + 1) with the non-401 status 404 and body
`[9]`.  Exactly one request is sent and `required` is never invoked, as
the claim says, but the call does not return the body bytes: it returns
an `HttpError` failure carrying them. -/
theorem c2_counterexample :
    (execute demoJoin demoTransportPm
        (stepConnector 0 respUnauthorized respNotFound)
        .POST "status" none 1).1 = .err (.HttpError 404 none [9]) ∧
    (execute demoJoin demoTransportPm
        (stepConnector 0 respUnauthorized respNotFound)
        .POST "status" none 1).1 ≠ .ok [9] ∧
    (execute demoJoin demoTransportPm
        (stepConnector 0 respUnauthorized respNotFound)
        .POST "status" none 1).2.sent.length = 1 ∧
    (execute demoJoin demoTransportPm
        (stepConnector 0 respUnauthorized respNotFound)
        .POST "status" none 1).2.counts.requiredCalls = 0 := by
  refine ⟨rfl, ?_, rfl, rfl⟩
  decide

/-- C2, amended.  For every n, on a secure endpoint with a provider whose
`cached` yields no credential and whose `required` always succeeds, if
the connector answers the first n attempts with a 401 response and
attempt n + 1 with a non-401 response, then `execute` sends exactly
n + 1 requests, the first request carries only the Content-Type header
(no Authorization), `required` is invoked exactly n times, and the final
response's body bytes are returned unchanged — as the success value when
the final status is not in the 4xx/5xx range, or inside the `HttpError`
failure (with that exact status) when it is. -/
theorem c2_retry_sequence (joinUrl : Url → String → Option Url)
    (t : Transport) (p : PasswordManager) (m : Method) (ep : String)
    (bdy : Option (List Nat)) (n fuel : Nat) (u : Url) (r401 rF : Response)
    (hpm : t.password_manager = some p)
    (hj : joinUrl t.url ep = some u)
    (hc : p.cached u.full = .ok none)
    (hr : ∀ i, ∃ cr, p.required i u.full = .ok cr)
    (hsec : t.url.scheme = "https" ∨ t.url.host = some "localhost")
    (h401 : r401.status = 401) (hF : rF.status ≠ 401)
    (hfuel : n + 1 ≤ fuel) :
    (execute joinUrl t (stepConnector n r401 rF) m ep bdy fuel).2.sent.length
        = n + 1 ∧
    (execute joinUrl t (stepConnector n r401 rF) m ep bdy
        fuel).2.counts.requiredCalls = n ∧
    (execute joinUrl t (stepConnector n r401 rF) m ep bdy fuel).2.sent.head?
        = some ⟨m, u.full, [("content-type", "application/cbor")], bdy⟩ ∧
    (¬(400 ≤ rF.status ∧ rF.status < 600) →
      (execute joinUrl t (stepConnector n r401 rF) m ep bdy fuel).1 =
        .ok rF.body) ∧
    ((400 ≤ rF.status ∧ rF.status < 600) →
      (execute joinUrl t (stepConnector n r401 rF) m ep bdy fuel).1 =
        .err (.HttpError rF.status (contentTypeOf rF.headers) rF.body)) := by
  have ha : maybe_add_authorization t.password_manager (initialRequest m u)
      true 0 ⟨0, 0⟩ = (.ok (initialRequest m u), ⟨1, 0⟩) := by
    rw [hpm]
    simp [maybe_add_authorization, initialRequest, hc]
  have h5 := executeLoop_steps t p n r401 rF u.full hpm hsec h401 hF hr n
    fuel { initialRequest m u with body := bdy } ⟨[], ⟨1, 0⟩⟩ rfl
    (by simp) hfuel
  have hsent := @execute_sent_eq_loop joinUrl t (stepConnector n r401 rF)
    m ep bdy fuel u (initialRequest m u) ⟨1, 0⟩ hj ha
  rcases hL : executeLoop t (stepConnector n r401 rF) fuel
      { initialRequest m u with body := bdy } ⟨[], ⟨1, 0⟩⟩ with ⟨lo, st⟩
  rw [hL] at h5 hsent
  have hlo : lo = .brk rF.status rF.headers rF.body := h5.1
  subst hlo
  have hres : execute joinUrl t (stepConnector n r401 rF) m ep bdy fuel =
      (classify rF.status rF.headers rF.body, st) := by
    rw [execute_eq_loop hj ha, hL]
  refine ⟨?_, ?_, ?_, ?_, ?_⟩
  · rw [hsent]
    have := h5.2.1
    simpa using this
  · rw [hsent]
    have := h5.2.2.1
    simpa using this
  · rw [hsent]
    have := h5.2.2.2.2
    simpa using this
  · intro hrange
    rw [hres]
    have hcond : (is_client_error rF.status || is_server_error rF.status)
        = false := by
      rcases Bool.eq_false_or_eq_true
          (is_client_error rF.status || is_server_error rF.status) with h6 | h6
      · exact absurd ((client_server_iff rF.status).mp h6) hrange
      · exact h6
    simp [classify, hcond]
  · intro hrange
    rw [hres]
    have hcond := (client_server_iff rF.status).mpr hrange
    simp [classify, hcond]

/-- C2, witness for the amended theorem: n = 1 on a concrete secure
transport; two requests, one `required` call, success body returned. -/
theorem c2_witness :
    (execute demoJoin demoTransportPm
        (stepConnector 1 respUnauthorized respOkBody)
        .GET "status" none 2).2.sent.length = 2 ∧
    (execute demoJoin demoTransportPm
        (stepConnector 1 respUnauthorized respOkBody)
        .GET "status" none 2).2.counts.requiredCalls = 1 ∧
    (execute demoJoin demoTransportPm
        (stepConnector 1 respUnauthorized respOkBody)
        .GET "status" none 2).1 = .ok [7, 8] := by
  have h := c2_retry_sequence demoJoin demoTransportPm demoPm .GET "status"
    none 1 2 ⟨"https", some "example.com", "https://example.com/api/v2/status"⟩
    respUnauthorized respOkBody rfl rfl rfl
    (fun i => ⟨("user", "pw"), rfl⟩) (Or.inl rfl) rfl (by decide) (by decide)
  exact ⟨h.1, h.2.1, h.2.2.2.1 (by decide)⟩

/-- C3.  On a transport whose URL scheme is not https and whose host is
not localhost, if the connector answers the first attempt with a 401
response, `execute` fails with `CannotUseAuthenticationOnNonSecureUrl`
after exactly one request, and `required` is never invoked. -/
theorem c3_insecure_refused (joinUrl : Url → String → Option Url)
    (t : Transport) (connector : Connector) (m : Method) (ep : String)
    (bdy : Option (List Nat)) (fuel : Nat) (u : Url) (r1 : Request)
    (c : AuthCounts) (resp : Response)
    (hj : joinUrl t.url ep = some u)
    (ha : maybe_add_authorization t.password_manager (initialRequest m u)
      true 0 ⟨0, 0⟩ = (.ok r1, c))
    (hsch : t.url.scheme ≠ "https") (hh : t.url.host ≠ some "localhost")
    (hconn : connector 0 { r1 with body := bdy } = some resp)
    (h401 : resp.status = 401) (hfuel : 1 ≤ fuel) :
    (execute joinUrl t connector m ep bdy fuel).1 =
        .err .CannotUseAuthenticationOnNonSecureUrl ∧
    (execute joinUrl t connector m ep bdy fuel).2.sent.length = 1 ∧
    (execute joinUrl t connector m ep bdy fuel).2.counts.requiredCalls = 0 := by
  rw [execute_eq_loop hj ha]
  match fuel, hfuel with
  | fuel + 1, _ =>
    rw [executeLoop_insecure hconn h401 hsch hh]
    have hc0 : c.requiredCalls = 0 := by
      have h2 := maybe_add_cached_requiredCalls t.password_manager
        (initialRequest m u) 0 ⟨0, 0⟩
      rw [ha] at h2
      exact h2
    exact ⟨rfl, by simp, hc0⟩

/-- C3, witness at a concrete input: an http transport against
example.com whose connector always answers 401. -/
theorem c3_witness :
    (execute demoJoin demoTransportInsecure
        (alwaysConnector respUnauthorized) .GET "status" none 1).1 =
      .err .CannotUseAuthenticationOnNonSecureUrl ∧
    (execute demoJoin demoTransportInsecure
        (alwaysConnector respUnauthorized) .GET "status" none 1).2.sent.length
      = 1 ∧
    (execute demoJoin demoTransportInsecure
        (alwaysConnector respUnauthorized)
        .GET "status" none 1).2.counts.requiredCalls = 0 :=
  c3_insecure_refused demoJoin demoTransportInsecure
    (alwaysConnector respUnauthorized) .GET "status" none 1
    ⟨"http", some "example.com", "http://example.com/api/v2/status"⟩
    (initialRequest .GET
      ⟨"http", some "example.com", "http://example.com/api/v2/status"⟩)
    ⟨1, 0⟩ respUnauthorized rfl rfl (by decide) (by decide) rfl rfl
    (by decide)

/-- C4.  For a terminal (non-401) response: a status in the 4xx or 5xx
range yields `HttpError` carrying exactly that status, the Content-Type
header value when present and convertible, and the body bytes
unmodified; every other status yields success with the body bytes
unmodified. -/
theorem c4_terminal_classification (joinUrl : Url → String → Option Url)
    (t : Transport) (m : Method) (ep : String) (bdy : Option (List Nat))
    (fuel : Nat) (u : Url) (r1 : Request) (c : AuthCounts) (resp : Response)
    (hj : joinUrl t.url ep = some u)
    (ha : maybe_add_authorization t.password_manager (initialRequest m u)
      true 0 ⟨0, 0⟩ = (.ok r1, c))
    (hterm : resp.status ≠ 401) (hfuel : 1 ≤ fuel) :
    ((400 ≤ resp.status ∧ resp.status < 600) →
      (execute joinUrl t (alwaysConnector resp) m ep bdy fuel).1 =
        .err (.HttpError resp.status (contentTypeOf resp.headers)
          resp.body)) ∧
    (¬(400 ≤ resp.status ∧ resp.status < 600) →
      (execute joinUrl t (alwaysConnector resp) m ep bdy fuel).1 =
        .ok resp.body) := by
  rw [execute_terminal_result hj ha hterm hfuel]
  constructor
  · intro hrange
    have hcond := (client_server_iff resp.status).mpr hrange
    simp [classify, hcond]
  · intro hrange
    have hcond : (is_client_error resp.status || is_server_error resp.status)
        = false := by
      rcases Bool.eq_false_or_eq_true
          (is_client_error resp.status || is_server_error resp.status)
        with h6 | h6
      · exact absurd ((client_server_iff resp.status).mp h6) hrange
      · exact h6
    simp [classify, hcond]

/-- C4, witness at concrete inputs: a 500 response with a Content-Type
header yields the corresponding `HttpError`; a 204 response yields its
body. -/
theorem c4_witness :
    (execute demoJoin demoTransportNoPm
        (alwaysConnector ⟨500, [("content-type", [116, 101, 120, 116])], [1]⟩)
        .GET "status" none 1).1 =
      .err (.HttpError 500
        (contentTypeOf [("content-type", [116, 101, 120, 116])]) [1]) ∧
    (execute demoJoin demoTransportNoPm (alwaysConnector ⟨204, [], [3]⟩)
        .GET "status" none 1).1 = .ok [3] := by
  constructor
  · exact (c4_terminal_classification demoJoin demoTransportNoPm .GET
      "status" none 1
      ⟨"https", some "example.com", "https://example.com/api/v2/status"⟩
      (initialRequest .GET
        ⟨"https", some "example.com", "https://example.com/api/v2/status"⟩)
      ⟨0, 0⟩ ⟨500, [("content-type", [116, 101, 120, 116])], [1]⟩
      rfl rfl (by decide) (by decide)).1 (by decide)
  · exact (c4_terminal_classification demoJoin demoTransportNoPm .GET
      "status" none 1
      ⟨"https", some "example.com", "https://example.com/api/v2/status"⟩
      (initialRequest .GET
        ⟨"https", some "example.com", "https://example.com/api/v2/status"⟩)
      ⟨0, 0⟩ ⟨204, [], [3]⟩ rfl rfl (by decide) (by decide)).2 (by decide)

/-- C5.  Across the attempts of one `execute` call, every request handed
to the connector has the method, URL and body fixed by the call, carries
the `Content-Type: application/cbor` header, and any two sent requests
differ at most in their `authorization` header. -/
theorem c5_only_authorization_changes (joinUrl : Url → String → Option Url)
    (t : Transport) (connector : Connector) (m : Method) (ep : String)
    (bdy : Option (List Nat)) (fuel : Nat) (u : Url) (r1 : Request)
    (c : AuthCounts)
    (hj : joinUrl t.url ep = some u)
    (ha : maybe_add_authorization t.password_manager (initialRequest m u)
      true 0 ⟨0, 0⟩ = (.ok r1, c)) :
    (∀ r ∈ (execute joinUrl t connector m ep bdy fuel).2.sent,
      r.method = m ∧ r.url = u.full ∧ r.body = bdy ∧
        ("content-type", "application/cbor") ∈ r.headers) ∧
    (∀ r ∈ (execute joinUrl t connector m ep bdy fuel).2.sent,
      ∀ r2 ∈ (execute joinUrl t connector m ep bdy fuel).2.sent,
        r.method = r2.method ∧ r.url = r2.url ∧ r.body = r2.body ∧
          stripAuth r.headers = stripAuth r2.headers) := by
  have hall := @execute_sent_all joinUrl t connector m ep bdy fuel u r1 c
    hj ha
  constructor
  · intro r hr
    have h2 := hall r hr
    refine ⟨h2.1, h2.2.1, h2.2.2.1, ?_⟩
    have hct : ("content-type", "application/cbor") ∈ stripAuth r.headers := by
      rw [h2.2.2.2]
      simp [stripAuth]
    exact (List.mem_filter.mp hct).1
  · intro r hr r2 hr2
    have h2 := hall r hr
    have h3 := hall r2 hr2
    exact ⟨h2.1.trans h3.1.symm, h2.2.1.trans h3.2.1.symm,
      h2.2.2.1.trans h3.2.2.1.symm, h2.2.2.2.trans h3.2.2.2.symm⟩

/-- C5, witness at a concrete input: the first request of the retry
scenario with one 401, on a transport with no manager. -/
theorem c5_witness :
    (⟨.GET, "https://example.com/api/v2/status",
        [("content-type", "application/cbor")], none⟩ : Request).method =
        .GET ∧
    (⟨.GET, "https://example.com/api/v2/status",
        [("content-type", "application/cbor")], none⟩ : Request).url =
        "https://example.com/api/v2/status" ∧
    (⟨.GET, "https://example.com/api/v2/status",
        [("content-type", "application/cbor")], none⟩ : Request).body =
        none ∧
    ("content-type", "application/cbor") ∈
      (⟨.GET, "https://example.com/api/v2/status",
        [("content-type", "application/cbor")], none⟩ : Request).headers :=
  (c5_only_authorization_changes demoJoin demoTransportNoPm
    (stepConnector 1 respUnauthorized respOkBody) .GET "status" none 2
    ⟨"https", some "example.com", "https://example.com/api/v2/status"⟩
    (initialRequest .GET
      ⟨"https", some "example.com", "https://example.com/api/v2/status"⟩)
    ⟨0, 0⟩ rfl rfl).1
    ⟨.GET, "https://example.com/api/v2/status",
      [("content-type", "application/cbor")], none⟩ (by decide)

/-- C6.  With a provider configured: a `cached` failure surfaces as an
`AuthenticationError` before any request is sent; after a 401 on a
secure endpoint, a `required` failure surfaces as an
`AuthenticationError` with no further request sent (exactly the one
request that drew the 401). -/
theorem c6_provider_failures (joinUrl : Url → String → Option Url)
    (t : Transport) (connector : Connector) (m : Method) (ep : String)
    (bdy : Option (List Nat)) (fuel : Nat) (p : PasswordManager) (u : Url)
    (hpm : t.password_manager = some p)
    (hj : joinUrl t.url ep = some u) :
    (∀ msg, p.cached u.full = .error msg →
      execute joinUrl t connector m ep bdy fuel =
        (.err (.AuthenticationError msg), ⟨[], ⟨1, 0⟩⟩)) ∧
    (∀ msg r1 c resp,
      maybe_add_authorization t.password_manager (initialRequest m u)
        true 0 ⟨0, 0⟩ = (.ok r1, c) →
      (t.url.scheme = "https" ∨ t.url.host = some "localhost") →
      connector 0 { r1 with body := bdy } = some resp →
      resp.status = 401 →
      p.required 0 u.full = .error msg →
      1 ≤ fuel →
      (execute joinUrl t connector m ep bdy fuel).1 =
          .err (.AuthenticationError msg) ∧
      (execute joinUrl t connector m ep bdy fuel).2.sent.length = 1) := by
  constructor
  · intro msg hcmsg
    have ha : maybe_add_authorization t.password_manager
        (initialRequest m u) true 0 ⟨0, 0⟩ =
          (.error (.AuthenticationError msg), ⟨1, 0⟩) := by
      rw [hpm]
      simp [maybe_add_authorization, initialRequest, hcmsg]
    exact execute_auth_err hj ha
  · intro msg r1 c resp ha hsec hconn h401 hreq0 hfuel
    have hc0 : c.requiredCalls = 0 := by
      have h2 := maybe_add_cached_requiredCalls t.password_manager
        (initialRequest m u) 0 ⟨0, 0⟩
      rw [ha] at h2
      exact h2
    have hurl : r1.url = u.full := (maybe_add_core ha).2.1
    rw [execute_eq_loop hj ha]
    match fuel, hfuel with
    | fuel + 1, _ =>
      rw [executeLoop_secure_step hconn h401 hsec, hpm]
      have hneed : p.required
          ((⟨[], c⟩ : ExecState).counts.requiredCalls)
          ({ r1 with body := bdy } : Request).url = .error msg := by
        show p.required c.requiredCalls r1.url = .error msg
        rw [hc0, hurl]
        exact hreq0
      rw [maybe_add_required_err c hneed]
      exact ⟨rfl, by simp⟩

/-- C6, witness at concrete inputs: a failing `cached` aborts before any
send; a failing `required` after a 401 aborts after one send. -/
theorem c6_witness :
    execute demoJoin demoTransportCachedFail (alwaysConnector respOkBody)
        .GET "status" none 5 =
      (.err (.AuthenticationError "keychain locked"), ⟨[], ⟨1, 0⟩⟩) ∧
    (execute demoJoin demoTransportRequiredFail
        (alwaysConnector respUnauthorized) .GET "status" none 5).1 =
      .err (.AuthenticationError "no terminal") ∧
    (execute demoJoin demoTransportRequiredFail
        (alwaysConnector respUnauthorized)
        .GET "status" none 5).2.sent.length = 1 := by
  have h1 := (c6_provider_failures demoJoin demoTransportCachedFail
    (alwaysConnector respOkBody) .GET "status" none 5 demoPmCachedFail
    ⟨"https", some "example.com", "https://example.com/api/v2/status"⟩
    rfl rfl).1 "keychain locked" rfl
  have h2 := (c6_provider_failures demoJoin demoTransportRequiredFail
    (alwaysConnector respUnauthorized) .GET "status" none 5
    demoPmRequiredFail
    ⟨"https", some "example.com", "https://example.com/api/v2/status"⟩
    rfl rfl).2 "no terminal"
    (initialRequest .GET
      ⟨"https", some "example.com", "https://example.com/api/v2/status"⟩)
    ⟨1, 0⟩ respUnauthorized rfl (Or.inl rfl) rfl rfl rfl (by decide)
  exact ⟨h1, h2.1, h2.2⟩

/-- C7.  The four logical operations issue exactly the specified wire
requests: `call` POSTs to `canister/<id>/call` with the envelope as
body and discards the body on success; `read_state` and `query` POST to
`canister/<id>/read_state` and `canister/<id>/query`; `status` GETs
`status` with no body; in each case every request handed to the
connector carries the envelope bytes unmodified as its body. -/
theorem c7_router (joinUrl : Url → String → Option Url) (t : Transport)
    (connector : Connector) (idText : String) (env : List Nat)
    (fuel : Nat) :
    (∀ u r1 c,
      joinUrl t.url ("canister/" ++ idText ++ "/call") = some u →
      maybe_add_authorization t.password_manager (initialRequest .POST u)
        true 0 ⟨0, 0⟩ = (.ok r1, c) →
      ∀ r ∈ (call joinUrl t connector idText env fuel).2.sent,
        r.method = .POST ∧ r.url = u.full ∧ r.body = some env) ∧
    (∀ b st,
      execute joinUrl t connector .POST ("canister/" ++ idText ++ "/call")
        (some env) fuel = (.ok b, st) →
      call joinUrl t connector idText env fuel = (.ok (), st)) ∧
    (read_state joinUrl t connector idText env fuel =
      execute joinUrl t connector .POST
        ("canister/" ++ idText ++ "/read_state") (some env) fuel) ∧
    (∀ u r1 c,
      joinUrl t.url ("canister/" ++ idText ++ "/read_state") = some u →
      maybe_add_authorization t.password_manager (initialRequest .POST u)
        true 0 ⟨0, 0⟩ = (.ok r1, c) →
      ∀ r ∈ (read_state joinUrl t connector idText env fuel).2.sent,
        r.method = .POST ∧ r.url = u.full ∧ r.body = some env) ∧
    (query joinUrl t connector idText env fuel =
      execute joinUrl t connector .POST
        ("canister/" ++ idText ++ "/query") (some env) fuel) ∧
    (∀ u r1 c,
      joinUrl t.url ("canister/" ++ idText ++ "/query") = some u →
      maybe_add_authorization t.password_manager (initialRequest .POST u)
        true 0 ⟨0, 0⟩ = (.ok r1, c) →
      ∀ r ∈ (query joinUrl t connector idText env fuel).2.sent,
        r.method = .POST ∧ r.url = u.full ∧ r.body = some env) ∧
    (status joinUrl t connector fuel =
      execute joinUrl t connector .GET "status" none fuel) ∧
    (∀ u r1 c,
      joinUrl t.url "status" = some u →
      maybe_add_authorization t.password_manager (initialRequest .GET u)
        true 0 ⟨0, 0⟩ = (.ok r1, c) →
      ∀ r ∈ (status joinUrl t connector fuel).2.sent,
        r.method = .GET ∧ r.url = u.full ∧ r.body = none) := by
  have hcall : (call joinUrl t connector idText env fuel).2 =
      (execute joinUrl t connector .POST
        ("canister/" ++ idText ++ "/call") (some env) fuel).2 := by
    unfold call
    rcases execute joinUrl t connector .POST
        ("canister/" ++ idText ++ "/call") (some env) fuel with ⟨res, st⟩
    cases res <;> rfl
  refine ⟨?_, ?_, rfl, ?_, rfl, ?_, rfl, ?_⟩
  · intro u r1 c hj ha r hr
    rw [hcall] at hr
    have h2 := execute_sent_all hj ha r hr
    exact ⟨h2.1, h2.2.1, h2.2.2.1⟩
  · intro b st h
    unfold call
    rw [h]
  · intro u r1 c hj ha r hr
    have h2 := execute_sent_all hj ha r hr
    exact ⟨h2.1, h2.2.1, h2.2.2.1⟩
  · intro u r1 c hj ha r hr
    have h2 := execute_sent_all hj ha r hr
    exact ⟨h2.1, h2.2.1, h2.2.2.1⟩
  · intro u r1 c hj ha r hr
    have h2 := execute_sent_all hj ha r hr
    exact ⟨h2.1, h2.2.1, h2.2.2.1⟩

/-- C7, witness at concrete inputs: a successful `call` discards the
body, and `status` is the GET of the `status` path. -/
theorem c7_witness :
    call demoJoin demoTransportNoPm (alwaysConnector respOkBody)
        "abc" [1] 1 =
      (.ok (), ⟨[⟨.POST, "https://example.com/api/v2/canister/abc/call",
        [("content-type", "application/cbor")], some [1]⟩], ⟨0, 0⟩⟩) ∧
    status demoJoin demoTransportNoPm (alwaysConnector respOkBody) 1 =
      execute demoJoin demoTransportNoPm (alwaysConnector respOkBody)
        .GET "status" none 1 := by
  have h := c7_router demoJoin demoTransportNoPm
    (alwaysConnector respOkBody) "abc" [1] 1
  exact ⟨h.2.1 [7, 8]
    ⟨[⟨.POST, "https://example.com/api/v2/canister/abc/call",
      [("content-type", "application/cbor")], some [1]⟩], ⟨0, 0⟩⟩ rfl,
    h.2.2.2.2.2.2.1⟩

/-- C8.  `create` fails with `InvalidReplicaUrl` carrying the offending
input exactly when parsing the input or joining it with `api/v2/`
fails; on success the stored URL is the joined URL computed once at
construction (and is preserved by `with_password_manager`), with no
password manager attached. -/
theorem c8_create_characterization (parseUrl : String → Option Url)
    (joinUrl : Url → String → Option Url) (s : String) :
    ((parseUrl s).bind (fun u => joinUrl u "api/v2/") = none →
      create parseUrl joinUrl s = .error (.InvalidReplicaUrl s)) ∧
    (∀ u, (parseUrl s).bind (fun u2 => joinUrl u2 "api/v2/") = some u →
      create parseUrl joinUrl s = .ok ⟨u, none⟩ ∧
      ∀ p : PasswordManager, (with_password_manager ⟨u, none⟩ p).url = u) := by
  constructor
  · intro h
    simp [create, h]
  · intro u h
    constructor
    · simp [create, h]
    · intro p
      rfl

/-- C8, witness at concrete inputs: a rejected address yields
`InvalidReplicaUrl` with that address; an accepted address stores the
address joined with `api/v2/`. -/
theorem c8_witness :
    create demoParseNone demoJoin "::bad::" =
      .error (.InvalidReplicaUrl "::bad::") ∧
    create demoParseSome demoJoin "https://example.com/" =
      .ok ⟨⟨"https", some "example.com",
        "https://example.com/api/v2/"⟩, none⟩ := by
  have h1 := (c8_create_characterization demoParseNone demoJoin
    "::bad::").1 rfl
  have h2 := ((c8_create_characterization demoParseSome demoJoin
    "https://example.com/").2
    ⟨"https", some "example.com", "https://example.com/api/v2/"⟩ rfl).1
  exact ⟨h1, h2⟩

/-- C9.  When no password manager is configured, `execute` performs zero
`cached` and zero `required` invocations, and the panicking
`NoPasswordManager` implementation can never be reached: the manager
slot of a transport typed over `NoPasswordManager` can only hold
`none`, the type being uninhabited. -/
theorem c9_no_provider_unreachable (joinUrl : Url → String → Option Url)
    (t : Transport) (connector : Connector) (m : Method) (ep : String)
    (bdy : Option (List Nat)) (fuel : Nat)
    (hpm : t.password_manager = none) :
    (execute joinUrl t connector m ep bdy fuel).2.counts = ⟨0, 0⟩ ∧
    (∀ x : Option NoPasswordManager, x = none) := by
  constructor
  · match hj : joinUrl t.url ep with
    | none =>
      rw [execute_join_none hj]
    | some u =>
      have ha : maybe_add_authorization t.password_manager
          (initialRequest m u) true 0 ⟨0, 0⟩ =
            (.ok (initialRequest m u), ⟨0, 0⟩) := by
        rw [hpm]
        rfl
      rw [execute_sent_eq_loop hj ha]
      exact (executeLoop_no_pm t connector hpm fuel
        { initialRequest m u with body := bdy } ⟨[], ⟨0, 0⟩⟩).1
  · intro x
    cases x with
    | none => rfl
    | some mm => exact mm.elim

/-- C9, witness at a concrete input. -/
theorem c9_witness :
    (execute demoJoin demoTransportNoPm (alwaysConnector respOkBody)
        .GET "status" none 3).2.counts = ⟨0, 0⟩ :=
  (c9_no_provider_unreachable demoJoin demoTransportNoPm
    (alwaysConnector respOkBody) .GET "status" none 3 rfl).1

/-- C10.  For a 4xx/5xx terminal response, the `HttpError`'s content
type is `some` of the Content-Type header's string form exactly when
that header is present (as found by the header lookup) and its bytes
are all visible ASCII; it is `none` when the header is absent or not
convertible; the status and body are reported intact either way. -/
theorem c10_content_type (joinUrl : Url → String → Option Url)
    (t : Transport) (m : Method) (ep : String) (bdy : Option (List Nat))
    (fuel : Nat) (u : Url) (r1 : Request) (c : AuthCounts)
    (resp : Response)
    (hj : joinUrl t.url ep = some u)
    (ha : maybe_add_authorization t.password_manager (initialRequest m u)
      true 0 ⟨0, 0⟩ = (.ok r1, c))
    (hterm : resp.status ≠ 401)
    (hrange : 400 ≤ resp.status ∧ resp.status < 600)
    (hfuel : 1 ≤ fuel) :
    (resp.headers.find? (fun q => q.1 == "content-type") = none →
      contentTypeOf resp.headers = none) ∧
    (∀ nm v,
      resp.headers.find? (fun q => q.1 == "content-type") = some (nm, v) →
      (v.all isVisibleAscii = true →
        contentTypeOf resp.headers = some (String.mk (v.map Char.ofNat))) ∧
      (v.all isVisibleAscii = false →
        contentTypeOf resp.headers = none)) ∧
    (execute joinUrl t (alwaysConnector resp) m ep bdy fuel).1 =
      .err (.HttpError resp.status (contentTypeOf resp.headers)
        resp.body) := by
  refine ⟨?_, ?_, ?_⟩
  · intro h
    simp [contentTypeOf, h]
  · intro nm v h
    constructor
    · intro hv
      have hvs : headerValueToStr v = some (String.mk (v.map Char.ofNat)) := by
        unfold headerValueToStr
        rw [if_pos hv]
      simp [contentTypeOf, h, hvs]
    · intro hv
      have hvs : headerValueToStr v = none := by
        unfold headerValueToStr
        rw [if_neg]
        simp [hv]
      simp [contentTypeOf, h, hvs]
  · rw [execute_terminal_result hj ha hterm hfuel]
    have hcond := (client_server_iff resp.status).mpr hrange
    simp [classify, hcond]

/-- C10, witness at concrete inputs: a convertible Content-Type value is
reported as a string, a non-ASCII one as `none`, with status and body
intact. -/
theorem c10_witness :
    contentTypeOf [("content-type", [116, 101, 120, 116])] =
      some (String.mk ([116, 101, 120, 116].map Char.ofNat)) ∧
    contentTypeOf [("content-type", [200])] = none ∧
    (execute demoJoin demoTransportNoPm
        (alwaysConnector ⟨500, [("content-type", [200])], [2]⟩)
        .GET "status" none 1).1 =
      .err (.HttpError 500 (contentTypeOf [("content-type", [200])])
        [2]) := by
  have h1 := c10_content_type demoJoin demoTransportNoPm .GET "status"
    none 1 ⟨"https", some "example.com", "https://example.com/api/v2/status"⟩
    (initialRequest .GET
      ⟨"https", some "example.com", "https://example.com/api/v2/status"⟩)
    ⟨0, 0⟩ ⟨500, [("content-type", [116, 101, 120, 116])], [1]⟩
    rfl rfl (by decide) (by decide) (by decide)
  have h2 := c10_content_type demoJoin demoTransportNoPm .GET "status"
    none 1 ⟨"https", some "example.com", "https://example.com/api/v2/status"⟩
    (initialRequest .GET
      ⟨"https", some "example.com", "https://example.com/api/v2/status"⟩)
    ⟨0, 0⟩ ⟨500, [("content-type", [200])], [2]⟩
    rfl rfl (by decide) (by decide) (by decide)
  refine ⟨?_, ?_, h2.2.2⟩
  · exact ((h1.2.1 "content-type" [116, 101, 120, 116] rfl).1 (by decide))
  · exact ((h2.2.1 "content-type" [200] rfl).2 (by decide))

end HttpTransport
